import Mathlib

/-!
Verification of the mesh loader of `opengl_rend_rs` (src/src/mesh.rs and its
supporting modules src/src/vertex_attributes.rs, src/src/buffer.rs,
src/src/opengl.rs) against its natural-language specification.

The Rust code is shallowly embedded: machine integers become `Nat`/`Int` with
explicit wrapping casts where a cast occurs in the source, fallible Rust code
returns `Except`, and Rust panics (`unimplemented!`, division by zero, slice
indexing, `assert_eq!`) are modelled as a distinct `RtError.panic` outcome.
GPU side effects are modelled as data: vertex-array objects record the
attribute registrations made on them, and buffer calls (`GenBuffers`,
`BindBuffer`, `BufferData` via `reserve_data_bytes`, `BufferSubData` via
`update_data_bytes`) are recorded in order as a call trace.  `f32` attribute
payloads are kept as their lexical tokens (the claims under verification
depend only on element counts, never on floating-point values).
-/

namespace OpenGlRend

/-- `DataType` from src/src/vertex_attributes.rs. -/
inductive DataType
  | byte
  | unsignedByte
  | short
  | unsignedShort
  | int
  | unsignedInt
  | double
  | float
  | fixed
deriving DecidableEq

/-- `DataType::size` from src/src/vertex_attributes.rs. -/
def DataType.size : DataType → Nat
  | .byte | .unsignedByte => 1
  | .short | .unsignedShort | .fixed => 2
  | .int | .unsignedInt | .float => 4
  | .double => 8

/-- `DataType::is_floating_point` from src/src/vertex_attributes.rs. -/
def DataType.is_floating_point (d : DataType) : Bool :=
  d = DataType.float || d = DataType.double || d = DataType.fixed

/-- `IndexSize` from src/src/opengl.rs. -/
inductive IndexSize
  | unsignedByte
  | unsignedShort
  | unsignedInt
deriving DecidableEq

/-- Modelled from the spec: `IndexSize::size` is called by
`IndicesData::byte_size` in src/src/mesh.rs but its definition is not under
src/ (src/src/opengl.rs declares `IndexSize` without it); the spec fixes the
index widths as u8, u16, u32, i.e. 1, 2 and 4 bytes. -/
def IndexSize.size : IndexSize → Nat
  | .unsignedByte => 1
  | .unsignedShort => 2
  | .unsignedInt => 4

/-- Modelled from the spec: src/src/mesh.rs imports `Primitive` from the
opengl module, but no `Primitive` declaration is under src/ (src/src/opengl.rs
has only `DrawMode`); the variants are the primitive kinds produced by
`parse_primitive` (spec 4.1 primitive tokens). -/
inductive Primitive
  | lines
  | triangles
  | triangleStrip
  | triangleFan
  | lineStrip
  | lineLoop
  | points
deriving DecidableEq

/-- `VertexAttribute` from src/src/vertex_attributes.rs
(`components: GLint`, `data_type: DataType`, `normalized: bool`). -/
structure VertexAttribute where
  components : Int
  data_type : DataType
  normalized : Bool
deriving DecidableEq

/-- `VertexAttribute::new` from src/src/vertex_attributes.rs. -/
def VertexAttribute.new (components : Int) (data_type : DataType)
    (normalized : Bool) : VertexAttribute :=
  ⟨components, data_type, normalized⟩

/-- `MeshError` from src/src/mesh.rs.  Wrapped foreign errors
(`std::io`, integer/float/bool parse errors, boxed attribute parse errors)
carry the offending token or a message string. -/
inductive MeshError
  | ioError (msg : String)
  | parseDataError (msg : String)
  | parseFloatDataError (msg : String)
  | unimplementedDataFormat (d : DataType)
  | unknownDataType (s : String)
  | nonExistingAttribute (s : String)
  | parseAttributeDataError (msg : String)
  | invalidVertexAttributeLocation (n : Nat)
  | invalidVertexAttributeSize (n : Int)
  | parseBoolDataError (msg : String)
  | unknownPrimitive (s : String)
  | invalidArrayStart (n : Int)
  | invalidArrayCount (n : Int)
  | invalidCommandAttribute (s : String)
  | meshRootNotFound (path : String)
  | noVertexAttributes (path : String)
  | sourceTagNotInVaoTag (path : String)
  | vertexAttributesArrayWithDifferentSize (i : Nat) (path : String)
  | vaoSourceInvalidIndex (attrib : Nat) (name : String) (path : String)
  | integralNormalizedError
  | integralFloatingError
deriving DecidableEq

/-- Outcome of running Rust code: a typed `MeshError`, or a panic
(`unimplemented!`, arithmetic/indexing panic, failed assertion). -/
inductive RtError
  | mesh (e : MeshError)
  | panic (msg : String)
deriving DecidableEq

/-- Computations in the embedded Rust code. -/
abbrev RustM (α : Type) := Except RtError α

instance {ε α : Type} [DecidableEq ε] [DecidableEq α] :
    DecidableEq (Except ε α)
  | .ok x, .ok y =>
    if h : x = y then isTrue (congrArg Except.ok h)
    else isFalse (fun hh => h (Except.ok.inj hh))
  | .error x, .error y =>
    if h : x = y then isTrue (congrArg Except.error h)
    else isFalse (fun hh => h (Except.error.inj hh))
  | .ok _, .error _ => isFalse (fun hh => Except.noConfusion hh)
  | .error _, .ok _ => isFalse (fun hh => Except.noConfusion hh)

/-- Lift a typed-error computation into `RustM` (Rust's `?` operator). -/
def liftMesh {α : Type} : Except MeshError α → RustM α
  | .ok a => .ok a
  | .error e => .error (.mesh e)

/-! ### Integer and float token parsing (Rust `str::parse`) -/

/-- One or more ASCII digits read as a decimal `Nat`; `none` otherwise. -/
def parseDigits : List Char → Option Nat
  | [] => none
  | cs =>
    cs.foldl
      (fun acc c =>
        match acc with
        | none => none
        | some n => if c.isDigit then some (n * 10 + (c.toNat - 48)) else none)
      (some 0)

/-- Strip one leading sign character, as Rust numeric parsing does. -/
def stripSign : List Char → List Char
  | '-' :: rest => rest
  | '+' :: rest => rest
  | cs => cs

/-- Rust `str::parse::<uN>`: optional `+`, digits, bounds check. -/
def parseUnsigned (bound : Nat) (s : String) : Option Nat :=
  let cs := match s.data with
    | '+' :: rest => rest
    | cs => cs
  match parseDigits cs with
  | some n => if n ≤ bound then some n else none
  | none => none

/-- Rust `str::parse::<iN>`: optional sign, digits, bounds check. -/
def parseSigned (lo hi : Int) (s : String) : Option Int :=
  let (neg, cs) := match s.data with
    | '-' :: rest => (true, rest)
    | '+' :: rest => (false, rest)
    | cs => (false, cs)
  match parseDigits cs with
  | none => none
  | some n =>
    let v : Int := if neg then -(n : Int) else (n : Int)
    if lo ≤ v ∧ v ≤ hi then some v else none

/-- Rust `str::parse::<u32>` (`GLuint`). -/
def parseU32 (s : String) : Option Nat := parseUnsigned (2 ^ 32 - 1) s

/-- Rust `str::parse::<u16>` (`GLushort`). -/
def parseU16 (s : String) : Option Nat := parseUnsigned (2 ^ 16 - 1) s

/-- Rust `str::parse::<u8>` (`GLubyte`). -/
def parseU8 (s : String) : Option Nat := parseUnsigned (2 ^ 8 - 1) s

/-- Rust `str::parse::<i32>` (`GLint`). -/
def parseI32 (s : String) : Option Int := parseSigned (-(2 ^ 31)) (2 ^ 31 - 1) s

/-- Rust `str::parse::<i16>` (`GLshort`). -/
def parseI16 (s : String) : Option Int := parseSigned (-(2 ^ 15)) (2 ^ 15 - 1) s

/-- Rust `str::parse::<i8>` (`GLbyte`). -/
def parseI8 (s : String) : Option Int := parseSigned (-(2 ^ 7)) (2 ^ 7 - 1) s

/-- Nonempty all-digit character list. -/
def digits1 (cs : List Char) : Bool :=
  !cs.isEmpty && cs.all Char.isDigit

/-- Lexical shape of a Rust `f32` significand with optional exponent:
`Digits '.'? Digits? | '.' Digits`, then `('e'|'E') sign? Digits`. -/
def floatSignificandExp (cs : List Char) : Bool :=
  let ip := cs.takeWhile Char.isDigit
  let r1 := cs.dropWhile Char.isDigit
  let (mantOk, r2) :=
    match r1 with
    | '.' :: rest =>
      let fp := rest.takeWhile Char.isDigit
      ((!ip.isEmpty || !fp.isEmpty), rest.dropWhile Char.isDigit)
    | _ => (!ip.isEmpty, r1)
  if !mantOk then false
  else
    match r2 with
    | [] => true
    | e :: rest => (e = 'e' || e = 'E') && digits1 (stripSign rest)

/-- Rust `str::parse::<f32>` (`GLfloat`), lexical acceptance only: `f32`
values are not representable in the embedding, so an accepted token is kept
verbatim (the claims depend only on element counts, never on float values). -/
def parseF32Lexical (s : String) : Option String :=
  let cs := stripSign s.data
  let lower := String.mk (cs.map Char.toLower)
  if lower = "inf" || lower = "infinity" || lower = "nan" then some s
  else if floatSignificandExp cs then some s else none

/-- Rust `bool::from_str` for the `integral` XML attribute. -/
def parseBoolStr (s : String) : Except MeshError Bool :=
  if s = "true" then .ok true
  else if s = "false" then .ok false
  else .error (.parseBoolDataError s)

/-- Accumulating splitter behind `splitWhitespace` (structural recursion on
the character list; `acc` holds the current word reversed). -/
def splitWhitespaceAux : List Char → List Char → List String
  | [], acc => if acc.isEmpty then [] else [String.mk acc.reverse]
  | c :: rest, acc =>
    if c.isWhitespace then
      (if acc.isEmpty then [] else [String.mk acc.reverse]) ++
        splitWhitespaceAux rest []
    else
      splitWhitespaceAux rest (c :: acc)

/-- Rust `str::split_whitespace`: split on whitespace, dropping empties. -/
def splitWhitespace (s : String) : List String :=
  splitWhitespaceAux s.data []

/-- `usize` value of an `i32` cast with `as usize` (sign extension to 64 bits
then reinterpretation as unsigned). -/
def asUsize (i : Int) : Nat := (i % (2 : Int) ^ 64).toNat

/-- `i32` value of a `usize` cast with `as i32` (truncating, two's
complement). -/
def asI32 (n : Nat) : Int :=
  let m : Nat := n % 2 ^ 32
  if m < 2 ^ 31 then (m : Int) else (m : Int) - 2 ^ 32

/-! ### Value stores (`VertexAttributeValues`, `IndicesValues`) -/

/-- `VertexAttributeValues` from src/src/mesh.rs.  Integer payloads are the
parsed values; `float` payloads are the lexically accepted `f32` tokens (see
`parseF32Lexical`). -/
inductive VertexAttributeValues
  | float (items : List String)
  | unsignedInt (items : List Nat)
  | int (items : List Int)
  | unsignedShort (items : List Nat)
  | short (items : List Int)
  | unsignedByte (items : List Nat)
  | byte (items : List Int)
deriving DecidableEq

/-- `VertexAttributeValues::parse_add` from src/src/mesh.rs: parse one
whitespace token at the store's kind and append it; integer parse failures
map to `ParseDataError`, float ones to `ParseFloatDataError` (the `From`
conversions of the `?` operator). -/
def VertexAttributeValues.parse_add :
    VertexAttributeValues → String → Except MeshError VertexAttributeValues
  | .float items, word =>
    match parseF32Lexical word with
    | some w => .ok (.float (items ++ [w]))
    | none => .error (.parseFloatDataError word)
  | .unsignedInt items, word =>
    match parseU32 word with
    | some n => .ok (.unsignedInt (items ++ [n]))
    | none => .error (.parseDataError word)
  | .int items, word =>
    match parseI32 word with
    | some n => .ok (.int (items ++ [n]))
    | none => .error (.parseDataError word)
  | .unsignedShort items, word =>
    match parseU16 word with
    | some n => .ok (.unsignedShort (items ++ [n]))
    | none => .error (.parseDataError word)
  | .short items, word =>
    match parseI16 word with
    | some n => .ok (.short (items ++ [n]))
    | none => .error (.parseDataError word)
  | .unsignedByte items, word =>
    match parseU8 word with
    | some n => .ok (.unsignedByte (items ++ [n]))
    | none => .error (.parseDataError word)
  | .byte items, word =>
    match parseI8 word with
    | some n => .ok (.byte (items ++ [n]))
    | none => .error (.parseDataError word)

/-- `VertexAttributeValues::len` from src/src/mesh.rs. -/
def VertexAttributeValues.len : VertexAttributeValues → Nat
  | .float items => items.length
  | .unsignedInt items => items.length
  | .int items => items.length
  | .unsignedShort items => items.length
  | .short items => items.length
  | .unsignedByte items => items.length
  | .byte items => items.length

/-- `impl From<DataType> for VertexAttributeValues` from src/src/mesh.rs:
`Fixed` and `Double` hit `unimplemented!()` — a panic, not a typed error. -/
def VertexAttributeValues.fromDataType (value : DataType) :
    RustM VertexAttributeValues :=
  match value with
  | .byte => .ok (.byte [])
  | .unsignedByte => .ok (.unsignedByte [])
  | .short => .ok (.short [])
  | .unsignedShort => .ok (.unsignedShort [])
  | .int => .ok (.int [])
  | .unsignedInt => .ok (.unsignedInt [])
  | .float => .ok (.float [])
  | .fixed | .double => .error (.panic "not implemented")

/-- `IndicesValues` from src/src/mesh.rs. -/
inductive IndicesValues
  | unsignedInt (items : List Nat)
  | unsignedShort (items : List Nat)
  | unsignedByte (items : List Nat)
deriving DecidableEq

/-- `IndicesValues::parse_add` from src/src/mesh.rs. -/
def IndicesValues.parse_add :
    IndicesValues → String → Except MeshError IndicesValues
  | .unsignedInt items, word =>
    match parseU32 word with
    | some n => .ok (.unsignedInt (items ++ [n]))
    | none => .error (.parseDataError word)
  | .unsignedShort items, word =>
    match parseU16 word with
    | some n => .ok (.unsignedShort (items ++ [n]))
    | none => .error (.parseDataError word)
  | .unsignedByte items, word =>
    match parseU8 word with
    | some n => .ok (.unsignedByte (items ++ [n]))
    | none => .error (.parseDataError word)

/-- `IndicesValues::len` from src/src/mesh.rs. -/
def IndicesValues.len : IndicesValues → Nat
  | .unsignedInt items => items.length
  | .unsignedShort items => items.length
  | .unsignedByte items => items.length

/-- `impl From<IndexSize> for IndicesValues` from src/src/mesh.rs. -/
def IndicesValues.fromIndexSize (value : IndexSize) : IndicesValues :=
  match value with
  | .unsignedByte => .unsignedByte []
  | .unsignedShort => .unsignedShort []
  | .unsignedInt => .unsignedInt []

/-- `parse_attribute_values` from src/src/mesh.rs (panics through the
`From<DataType>` conversion on `Fixed`/`Double`). -/
def parse_attribute_values (data_type : DataType) (s : String) :
    RustM VertexAttributeValues := do
  let data ← VertexAttributeValues.fromDataType data_type
  (splitWhitespace s).foldlM (fun d word => liftMesh (d.parse_add word)) data

/-- `parse_indices_values` from src/src/mesh.rs. -/
def parse_indices_values (index_size : IndexSize) (s : String) :
    Except MeshError IndicesValues :=
  (splitWhitespace s).foldlM
    (fun d word => d.parse_add word)
    (IndicesValues.fromIndexSize index_size)

/-! ### XML attributes and token grammars -/

/-- `xml::attribute::OwnedAttribute`, reduced to the parts the loader reads
(`name.local_name` and `value`). -/
structure OwnedAttribute where
  local_name : String
  value : String
deriving DecidableEq

/-- `parse_data_type` from src/src/mesh.rs. -/
def parse_data_type (s : String) : Except MeshError (DataType × Bool) :=
  match s with
  | "float" => .ok (.float, false)
  | "half" => .ok (.fixed, false)
  | "int" => .ok (.int, false)
  | "uint" => .ok (.unsignedInt, false)
  | "norm-int" => .ok (.int, true)
  | "norm-uint" => .ok (.unsignedInt, true)
  | "short" => .ok (.short, false)
  | "ushort" => .ok (.unsignedShort, false)
  | "norm-short" => .ok (.short, true)
  | "norm-ushort" => .ok (.unsignedShort, true)
  | "byte" => .ok (.byte, false)
  | "ubyte" => .ok (.unsignedByte, false)
  | "norm-byte" => .ok (.byte, true)
  | "norm-ubyte" => .ok (.unsignedByte, true)
  | _ => .error (.unknownDataType s)

/-- `parse_index_type` from src/src/mesh.rs. -/
def parse_index_type (s : String) : Except MeshError (IndexSize × Bool) :=
  match s with
  | "uint" => .ok (.unsignedInt, false)
  | "norm-uint" => .ok (.unsignedInt, true)
  | "ushort" => .ok (.unsignedShort, false)
  | "norm-ushort" => .ok (.unsignedShort, true)
  | "ubyte" => .ok (.unsignedByte, false)
  | "norm-ubyte" => .ok (.unsignedByte, true)
  | _ => .error (.unknownDataType s)

/-- `parse_primitive` from src/src/mesh.rs. -/
def parse_primitive (s : String) : Except MeshError Primitive :=
  match s with
  | "lines" => .ok .lines
  | "triangles" => .ok .triangles
  | "tri-strip" => .ok .triangleStrip
  | "tri-fan" => .ok .triangleFan
  | "line-strip" => .ok .lineStrip
  | "line-loop" => .ok .lineLoop
  | "points" => .ok .points
  | _ => .error (.unknownPrimitive s)

/-- `find_attribute` from src/src/mesh.rs. -/
def find_attribute (attributes : List OwnedAttribute) (name : String) :
    Except MeshError String :=
  match attributes.find? (fun a => a.local_name = name) with
  | some a => .ok a.value
  | none => .error (.nonExistingAttribute name)

/-- `find_attribute_parse` from src/src/mesh.rs, with the concrete `FromStr`
instance passed as the parsing function; a parse failure becomes
`ParseAttributeDataError` carrying the offending value. -/
def find_attribute_parse {α : Type} (parse : String → Option α)
    (attributes : List OwnedAttribute) (name : String) :
    Except MeshError α := do
  let s ← find_attribute attributes name
  match parse s with
  | some v => .ok v
  | none => .error (.parseAttributeDataError s)

/-! ### `Attribute` -/

/-- `Attribute` from src/src/mesh.rs. -/
structure Attribute where
  index : Nat
  vertex_attribute : VertexAttribute
  data : VertexAttributeValues
deriving DecidableEq

/-- `Attribute::new` from src/src/mesh.rs.  Note the source's bound check on
`size` is `!(0..=5).contains(&size)`, so a parsed size of 0 is accepted. -/
def Attribute.new (attributes : List OwnedAttribute) (string_data : String) :
    RustM Attribute := do
  let index ← liftMesh (find_attribute_parse parseU32 attributes "index")
  if index > 16 then
    throw (.mesh (.invalidVertexAttributeLocation index))
  let size ← liftMesh (find_attribute_parse parseI32 attributes "size")
  if ¬(0 ≤ size ∧ size ≤ 5) then
    throw (.mesh (.invalidVertexAttributeSize size))
  let data_type_s ← liftMesh (find_attribute attributes "type")
  let dn ← liftMesh (parse_data_type data_type_s)
  let data_type := dn.1
  let normalized := dn.2
  match find_attribute attributes "integral" with
  | .ok integral => do
    let is_integral ← liftMesh (parseBoolStr integral)
    if normalized && is_integral then
      throw (.mesh .integralNormalizedError)
    if data_type.is_floating_point && is_integral then
      throw (.mesh .integralFloatingError)
  | .error _ => pure ()
  let vertex_attribute := VertexAttribute.new size data_type normalized
  let data ← parse_attribute_values data_type string_data
  pure { index := index, vertex_attribute := vertex_attribute, data := data }

/-- `Attribute::num_elements` from src/src/mesh.rs:
`self.data.len() / self.vertex_attribute.components as usize` — a Rust
division, which panics when the divisor is zero. -/
def Attribute.num_elements (a : Attribute) : RustM Nat :=
  let c := asUsize a.vertex_attribute.components
  if c = 0 then .error (.panic "attempt to divide by zero")
  else .ok (a.data.len / c)

/-- `Attribute::byte_size` from src/src/mesh.rs. -/
def Attribute.byte_size (a : Attribute) : Nat :=
  a.data.len * a.vertex_attribute.data_type.size

/-! ### Vertex-array objects -/

/-- One `VertexArrayObject::set_attribute` registration (location, attribute
descriptor, stride, byte offset) from src/src/vertex_attributes.rs. -/
structure VaoEntry where
  location : Nat
  attr : VertexAttribute
  stride : Int
  offset : Int
deriving DecidableEq

/-- `VertexArrayObject` from src/src/vertex_attributes.rs, modelled by the
registrations made on it (the GPU handle itself carries no further state the
claims observe). -/
structure VertexArrayObject where
  entries : List VaoEntry
deriving DecidableEq

/-- `VertexArrayObject::new`. -/
def VertexArrayObject.new : VertexArrayObject := ⟨[]⟩

/-- `VertexArrayObject::set_attribute` from src/src/vertex_attributes.rs. -/
def VertexArrayObject.set_attribute (vao : VertexArrayObject) (location : Nat)
    (attr : VertexAttribute) (stride : Int) (offset : Int) :
    VertexArrayObject :=
  ⟨vao.entries ++ [⟨location, attr, stride, offset⟩]⟩

/-- `Attribute::setup_attribute_array` from src/src/mesh.rs:
`vao.set_attribute(self.index, &self.vertex_attribute, 0, offset)`. -/
def Attribute.setup_attribute_array (a : Attribute) (vao : VertexArrayObject)
    (offset : Int) : VertexArrayObject :=
  vao.set_attribute a.index a.vertex_attribute 0 offset

/-! ### `IndicesData` and `RenderCommand` -/

/-- `IndicesData` from src/src/mesh.rs. -/
structure IndicesData where
  index_size : IndexSize
  data : IndicesValues
deriving DecidableEq

/-- `IndicesData::new` from src/src/mesh.rs. -/
def IndicesData.new (attributes : List OwnedAttribute) (string_data : String) :
    Except MeshError IndicesData := do
  let data_type ← find_attribute attributes "type"
  let iw ← parse_index_type data_type
  let data ← parse_indices_values iw.1 string_data
  pure ⟨iw.1, data⟩

/-- `IndicesData::byte_size` from src/src/mesh.rs. -/
def IndicesData.byte_size (d : IndicesData) : Nat :=
  d.data.len * d.index_size.size

/-- `RenderCommand` from src/src/mesh.rs. -/
inductive RenderCommand
  | indexed (indexes : IndicesData) (primitive : Primitive) (count : Int)
      (index_size : IndexSize) (offset : Nat) (primitive_restart : Option Nat)
  | array (primitive : Primitive) (start : Int) (end_ : Int)
deriving DecidableEq

/-- `RenderCommand::arrays` from src/src/mesh.rs. -/
def RenderCommand.arrays (attributes : List OwnedAttribute) :
    Except MeshError RenderCommand := do
  let primitive ← find_attribute attributes "cmd"
  let primitive ← parse_primitive primitive
  let start ← find_attribute_parse parseI32 attributes "start"
  if start < 0 then
    throw (.invalidArrayStart start)
  let e ← find_attribute_parse parseI32 attributes "end"
  if e ≤ 0 then
    throw (.invalidArrayCount e)
  pure (.array primitive start e)

/-- `RenderCommand::indices` from src/src/mesh.rs: count and index size come
from the descriptor now (`count: indexes.data.len() as i32`), the byte offset
is a placeholder 0 until layout. -/
def RenderCommand.indices (attributes : List OwnedAttribute)
    (indexes : IndicesData) : Except MeshError RenderCommand := do
  let primitive ← find_attribute attributes "cmd"
  let primitive ← parse_primitive primitive
  let primitive_restart :=
    match find_attribute attributes "prim-restart" with
    | .ok s => parseU32 s
    | .error _ => none
  pure (.indexed indexes primitive (asI32 indexes.data.len)
    indexes.index_size 0 primitive_restart)

/-- `process_vao` from src/src/mesh.rs (the `assert_eq!` on the source
attribute's name is a panic; `attrib.value.parse::<GLuint>()?` converts a
parse failure into `ParseDataError`). -/
def process_vao (vao_attributes source_attributes : List OwnedAttribute) :
    RustM (String × List Nat) := do
  let name ← liftMesh (find_attribute vao_attributes "name")
  let attributes ← source_attributes.foldlM
    (fun acc attrib => do
      if attrib.local_name ≠ "attrib" then
        throw (.panic "assertion failed")
      match parseU32 attrib.value with
      | some value => pure (acc ++ [value])
      | none => throw (.mesh (.parseDataError attrib.value)))
    ([] : List Nat)
  pure (name, attributes)

/-! ### `Mesh::parse_xml` — streaming state machine

The `xml-rs` event stream is modelled as a list of reader results: each item
is either a decoded event or a reader (lexical/well-formedness) error, which
is what iterating `EventReader` yields in the source.  Events the loader's
`match` ignores (`StartDocument`, comments, whitespace, CData, processing
instructions) are collapsed into one `other` constructor. -/

/-- The `xml::reader::XmlEvent` constructors the loader distinguishes. -/
inductive XmlEvent
  | startElement (name : String) (attributes : List OwnedAttribute)
  | characters (data : String)
  | endElement
  | endDocument
  | other
deriving DecidableEq

/-- `ParserState` from `Mesh::parse_xml` in src/src/mesh.rs. -/
inductive ParserState
  | initial
  | justPassedMeshRoot
  | inAttributeTag (attributes : List OwnedAttribute)
  | inVaoTag (vao_attributes : List OwnedAttribute)
      (sources_attributes : List OwnedAttribute)
  | inIndicesTag (attributes : List OwnedAttribute)
deriving DecidableEq

/-- `ParsedData` from src/src/mesh.rs. -/
structure ParsedData where
  attribs : List Attribute
  named_vao_list : List (String × List Nat)
  commands : List RenderCommand
deriving DecidableEq

/-- The event loop of `Mesh::parse_xml` from src/src/mesh.rs, one step per
reader result.  A reader error (`Err(err)`) is only printed
(`eprintln!("Error : {err}")`) and the loop continues — it does not abort
parsing.  `depth` is the `i32` nesting counter of the source. -/
def parseXmlLoop (string_path : String) :
    List (Except String XmlEvent) → ParserState → Int →
    List Attribute → List (String × List Nat) → List RenderCommand →
    RustM ParsedData
  | [], _, _, attribs, named_vao_list, commands =>
    .ok ⟨attribs, named_vao_list, commands⟩
  | .error _ :: rest, st, depth, attribs, named_vao_list, commands =>
    parseXmlLoop string_path rest st depth attribs named_vao_list commands
  | .ok .endDocument :: _, _, _, attribs, named_vao_list, commands =>
    .ok ⟨attribs, named_vao_list, commands⟩
  | .ok (.startElement name attributes) :: rest, st, depth, attribs,
      named_vao_list, commands =>
    if depth = 0 then
      if name ≠ "mesh" then
        .error (.mesh (.meshRootNotFound string_path))
      else
        parseXmlLoop string_path rest .justPassedMeshRoot (depth + 1)
          attribs named_vao_list commands
    else if depth = 1 then
      if st = .justPassedMeshRoot ∧ name ≠ "attribute" then
        .error (.mesh (.noVertexAttributes string_path))
      else
        match name with
        | "attribute" =>
          parseXmlLoop string_path rest (.inAttributeTag attributes)
            (depth + 1) attribs named_vao_list commands
        | "vao" =>
          parseXmlLoop string_path rest (.inVaoTag attributes []) (depth + 1)
            attribs named_vao_list commands
        | "arrays" =>
          match RenderCommand.arrays attributes with
          | .ok command =>
            parseXmlLoop string_path rest .initial (depth + 1) attribs
              named_vao_list (commands ++ [command])
          | .error e => .error (.mesh e)
        | "indices" =>
          parseXmlLoop string_path rest (.inIndicesTag attributes) (depth + 1)
            attribs named_vao_list commands
        | _ =>
          parseXmlLoop string_path rest .initial (depth + 1) attribs
            named_vao_list commands
    else if depth = 2 then
      if name = "source" then
        match st with
        | .inVaoTag vao_attributes sources_attributes =>
          parseXmlLoop string_path rest
            (.inVaoTag vao_attributes (sources_attributes ++ attributes))
            (depth + 1) attribs named_vao_list commands
        | _ => .error (.mesh (.sourceTagNotInVaoTag string_path))
      else
        parseXmlLoop string_path rest st (depth + 1) attribs named_vao_list
          commands
    else
      parseXmlLoop string_path rest st (depth + 1) attribs named_vao_list
        commands
  | .ok (.characters data) :: rest, st, depth, attribs, named_vao_list,
      commands =>
    match st with
    | .inAttributeTag attributes =>
      match Attribute.new attributes data with
      | .ok attr =>
        parseXmlLoop string_path rest .initial depth (attribs ++ [attr])
          named_vao_list commands
      | .error e => .error e
    | .inIndicesTag attributes =>
      match IndicesData.new attributes data with
      | .ok idata =>
        match RenderCommand.indices attributes idata with
        | .ok command =>
          parseXmlLoop string_path rest .initial depth attribs named_vao_list
            (commands ++ [command])
        | .error e => .error (.mesh e)
      | .error e => .error (.mesh e)
    | _ =>
      parseXmlLoop string_path rest st depth attribs named_vao_list commands
  | .ok .endElement :: rest, st, depth, attribs, named_vao_list, commands =>
    if depth ≤ 2 then
      match st with
      | .inVaoTag vao_attributes sources_attributes =>
        match process_vao vao_attributes sources_attributes with
        | .ok nv =>
          parseXmlLoop string_path rest .initial (depth - 1) attribs
            (named_vao_list ++ [nv]) commands
        | .error e => .error e
      | _ =>
        parseXmlLoop string_path rest st (depth - 1) attribs named_vao_list
          commands
    else
      parseXmlLoop string_path rest st (depth - 1) attribs named_vao_list
        commands
  | .ok .other :: rest, st, depth, attribs, named_vao_list, commands =>
    parseXmlLoop string_path rest st depth attribs named_vao_list commands

/-- `Mesh::parse_xml` from src/src/mesh.rs, over an already-lexed reader
result stream (file opening is outside the embedding; `string_path` is the
lossy path string the source computes). -/
def Mesh.parse_xml (string_path : String)
    (events : List (Except String XmlEvent)) : RustM ParsedData :=
  parseXmlLoop string_path events .initial 0 [] [] []

/-! ### `Mesh::new` — buffer layout and upload planner -/

/-- The two `Target`s of src/src/buffer.rs the mesh loader uses
(`ArrayBuffer` = `GL_ARRAY_BUFFER`, `IndexBuffer` = `GL_ELEMENT_ARRAY_BUFFER`;
the remaining targets of the source enum never appear in the loader). -/
inductive Target
  | arrayBuffer
  | indexBuffer
deriving DecidableEq

/-- One buffer-affecting GL call made by `Mesh::new`, in call order:
`GenBuffers` (from `Buffer::new`), `BindBuffer` (from `Buffer::bind`),
`BufferData` (from `Buffer::reserve_data_bytes`, i.e. GPU allocation) and
`BufferSubData` (from `Buffer::update_data_bytes`, i.e. byte upload). -/
inductive GlCall
  | genBuffers (target : Target)
  | bindBuffer (target : Target)
  | bufferData (target : Target) (size : Nat)
  | bufferSubData (target : Target) (size : Nat) (offset : Nat)
deriving DecidableEq

/-- Does a call allocate GPU buffer storage or upload bytes into it? -/
def GlCall.isBufferWrite : GlCall → Bool
  | .bufferData _ _ => true
  | .bufferSubData _ _ _ => true
  | _ => false

/-- The 16-byte round-up of both layout loops in `Mesh::new`
(src/src/mesh.rs): `if size % 16 != 0 { size + (16 - size % 16) } else
{ size }`. -/
def align16 (size : Nat) : Nat :=
  if size % 16 ≠ 0 then size + (16 - size % 16) else size

/-- The packing loop of `Mesh::new` (run once over attribute byte sizes and
once over index-stream byte sizes): walk the byte sizes with a running
cursor, aligning the cursor to 16 before recording each start location and
then advancing it by the byte size.  Returns the start locations and the
final cursor (the buffer size to allocate). -/
def packAligned16 : List Nat → Nat → List Nat × Nat
  | [], size => ([], size)
  | bs :: rest, size =>
    let size' := align16 size
    let packed := packAligned16 rest (size' + bs)
    (size' :: packed.1, packed.2)

/-- The cross-attribute validation loop of `Mesh::new` (src/src/mesh.rs):
`num_elements` is taken from the attribute at index 0 and every attribute's
`num_elements()` is compared against it; the first mismatch returns
`VertexAttributesArrayWithDifferentSize(i, path)`.  Calls `num_elements`,
hence panics on a zero component count. -/
def checkAttribsLoop (string_path : String) :
    List Attribute → Nat → Nat → RustM Unit
  | [], _, _ => .ok ()
  | attrib :: rest, i, num_elements =>
    match (if i = 0 then attrib.num_elements else .ok num_elements) with
    | .error e => .error e
    | .ok num_elements =>
      match attrib.num_elements with
      | .error e => .error e
      | .ok ne =>
        if ne ≠ num_elements then
          .error (.mesh (.vertexAttributesArrayWithDifferentSize i
            string_path))
        else
          checkAttribsLoop string_path rest (i + 1) num_elements

/-- The default-VAO registration loop of `Mesh::new`: each attribute is
registered at its computed start location (`offset as GLint`). -/
def setupDefaultVao : VertexArrayObject → List (Attribute × Nat) →
    VertexArrayObject
  | vao, [] => vao
  | vao, (attrib, offset) :: rest =>
    setupDefaultVao (attrib.setup_attribute_array vao (asI32 offset)) rest

/-- The inner named-VAO loop of `Mesh::new`: each referenced attribute
location is resolved with `attribs.iter().position(|a| a.index == attrib)`;
`None` returns `VaoSourceInvalidIndex(attrib, name, path)`, and otherwise the
found attribute is registered at `offset as GLint` — where `offset` is the
POSITION in the attribute list, exactly as the source does. -/
def findPositionEq : List Attribute → Nat → Nat → Option (Nat × Attribute)
  | [], _, _ => none
  | a :: rest, attrib, i =>
    if a.index = attrib then some (i, a) else findPositionEq rest attrib (i + 1)

/-- Builds one named VAO from its referenced attribute locations (the inner
loop of the named-VAO section of `Mesh::new`). -/
def buildNamedVao (attribs : List Attribute) (name string_path : String) :
    List Nat → VertexArrayObject → RustM VertexArrayObject
  | [], vao => .ok vao
  | attrib :: rest, vao =>
    match findPositionEq attribs attrib 0 with
    | none => .error (.mesh (.vaoSourceInvalidIndex attrib name string_path))
    | some (offset, a) =>
      buildNamedVao attribs name string_path rest
        (a.setup_attribute_array vao (asI32 offset))

/-- `HashMap::insert` on the named-VAO map, modelled on an association list:
replace the value when the key is present, append otherwise. -/
def mapInsert {β : Type} : List (String × β) → String → β →
    List (String × β)
  | [], k, v => [(k, v)]
  | (k', v') :: rest, k, v =>
    if k' = k then (k, v) :: rest else (k', v') :: mapInsert rest k v

/-- The outer named-VAO loop of `Mesh::new`. -/
def buildNamedVaoList (attribs : List Attribute) (string_path : String) :
    List (String × List Nat) → List (String × VertexArrayObject) →
    RustM (List (String × VertexArrayObject))
  | [], named_vaos => .ok named_vaos
  | (name, source_list) :: rest, named_vaos =>
    match buildNamedVao attribs name string_path source_list
        VertexArrayObject.new with
    | .error e => .error e
    | .ok vao =>
      buildNamedVaoList attribs string_path rest
        (mapInsert named_vaos name vao)

/-- `filter_map` of the indexed commands' descriptors (`indices_list` in
`Mesh::new`, also `ParsedData::indices`/`MeshData::indices`). -/
def commandsIndices : List RenderCommand → List IndicesData
  | [] => []
  | .indexed indexes _ _ _ _ _ :: rest => indexes :: commandsIndices rest
  | .array _ _ _ :: rest => commandsIndices rest

/-- The back-fill loop of `Mesh::new`: walk the commands, assigning the next
index start location to each `Indexed` command's `offset`; running out of
start locations would be a Rust slice-index panic. -/
def backfillCommands : List RenderCommand → List Nat →
    RustM (List RenderCommand)
  | [], _ => .ok []
  | .indexed indexes p count w _ pr :: rest, loc :: locs =>
    match backfillCommands rest locs with
    | .error e => .error e
    | .ok tail => .ok (.indexed indexes p count w loc pr :: tail)
  | .indexed _ _ _ _ _ _ :: _, [] => .error (.panic "index out of bounds")
  | .array p s e :: rest, locs =>
    match backfillCommands rest locs with
    | .error err => .error err
    | .ok tail => .ok (.array p s e :: tail)

/-- The `Mesh`'s post-construction data (`MeshData` of src/src/mesh.rs): the
default VAO, the named-VAO map, the finalized commands and the two buffer
sizes that were allocated. -/
structure MeshOut where
  vao : VertexArrayObject
  named_vaos : List (String × VertexArrayObject)
  commands : List RenderCommand
  attribute_buffer_size : Nat
  index_buffer_size : Nat
deriving DecidableEq

/-- The `GenBuffers` calls of `MeshData::new` (one array buffer, one index
buffer; the `GenVertexArrays` call has no buffer effect). -/
def meshDataNewCalls : List GlCall :=
  [.genBuffers .arrayBuffer, .genBuffers .indexBuffer]

/-- `Mesh::new` from src/src/mesh.rs, given the parsed data (`parse_xml`'s
output) and the lossy path string.  Returns the buffer-affecting GL calls
made (in order, including those made before an early error return) together
with the result. -/
def Mesh.new (parsed_data : ParsedData) (string_path : String) :
    List GlCall × RustM MeshOut :=
  match checkAttribsLoop string_path parsed_data.attribs 0 0 with
  | .error e => (meshDataNewCalls, .error e)
  | .ok _ =>
    let packed :=
      packAligned16 (parsed_data.attribs.map Attribute.byte_size) 0
    let attribute_start_locs := packed.1
    let attribute_buffer_size := packed.2
    let attrPairs := parsed_data.attribs.zip attribute_start_locs
    let attrCalls := meshDataNewCalls ++
      [.bindBuffer .arrayBuffer,
       .bufferData .arrayBuffer attribute_buffer_size] ++
      attrPairs.map (fun p => GlCall.bufferSubData .arrayBuffer
        p.1.byte_size p.2)
    let vao := setupDefaultVao VertexArrayObject.new attrPairs
    match buildNamedVaoList parsed_data.attribs string_path
        parsed_data.named_vao_list [] with
    | .error e => (attrCalls, .error e)
    | .ok named_vaos =>
      let indices_list := commandsIndices parsed_data.commands
      let ipacked := packAligned16 (indices_list.map IndicesData.byte_size) 0
      let index_start_locs := ipacked.1
      let index_buffer_size := ipacked.2
      if index_buffer_size > 0 then
        let indexCalls := attrCalls ++
          [.bindBuffer .indexBuffer,
           .bufferData .indexBuffer index_buffer_size] ++
          (indices_list.zip index_start_locs).map
            (fun p => GlCall.bufferSubData .indexBuffer p.1.byte_size p.2)
        match backfillCommands parsed_data.commands index_start_locs with
        | .error e => (indexCalls, .error e)
        | .ok commands =>
          (indexCalls ++
            List.replicate named_vaos.length (GlCall.bindBuffer .indexBuffer),
           .ok ⟨vao, named_vaos, commands, attribute_buffer_size,
             index_buffer_size⟩)
      else
        (attrCalls,
         .ok ⟨vao, named_vaos, parsed_data.commands, attribute_buffer_size,
           index_buffer_size⟩)

/-! ### `Mesh::render` and `Mesh::render_mesh` -/

/-- One draw call issued against the graphics device
(`OpenGl::draw_elements` / `OpenGl::draw_arrays`). -/
inductive DrawCall
  | drawElements (primitive : Primitive) (count : Int)
      (index_size : IndexSize) (offset : Nat)
  | drawArrays (primitive : Primitive) (start : Int) (count : Int)
deriving DecidableEq

/-- `RenderCommand::render` from src/src/mesh.rs (reads the command, issues
one draw call, mutates nothing). -/
def RenderCommand.render : RenderCommand → DrawCall
  | .indexed _ primitive count index_size offset _ =>
    .drawElements primitive count index_size offset
  | .array primitive start e => .drawArrays primitive start e

/-- One VAO-or-draw event issued while rendering. -/
inductive RenderEvent
  | bindVertexArray (vao : VertexArrayObject)
  | draw (call : DrawCall)
  | unbindVertexArray
deriving DecidableEq

/-- Is the event a draw call? -/
def RenderEvent.isDraw : RenderEvent → Bool
  | .draw _ => true
  | _ => false

/-- `Mesh::render` from src/src/mesh.rs: bind the default VAO, replay every
command in order, unbind. -/
def Mesh.render (m : MeshOut) : List RenderEvent :=
  [.bindVertexArray m.vao] ++
    m.commands.map (fun cmd => RenderEvent.draw cmd.render) ++
    [.unbindVertexArray]

/-- `Mesh::render_mesh` from src/src/mesh.rs: look the name up in the
named-VAO map (`iter_mut().find(|(name, _)| **name == mesh_name)`); when
absent, return with no event; otherwise bind that VAO, replay every command
in order, unbind. -/
def Mesh.render_mesh (m : MeshOut) (mesh_name : String) : List RenderEvent :=
  match m.named_vaos.find? (fun p => p.1 = mesh_name) with
  | none => []
  | some p =>
    [.bindVertexArray p.2] ++
      m.commands.map (fun cmd => RenderEvent.draw cmd.render) ++
      [.unbindVertexArray]

/-! ### Specification-side definitions

These follow the spec's words (not the source), for comparison against the
embedded source functions. -/

/-- Spec 4.4 step 2 read off: the padded byte size of each attribute is the
padding inserted before it plus its byte size, walking the same running
cursor; the spec states the allocated size is the sum of these. -/
def paddedSizes : List Nat → Nat → List Nat
  | [], _ => []
  | bs :: rest, cursor =>
    (align16 cursor - cursor + bs) :: paddedSizes rest (align16 cursor + bs)

/-- The mathematical value of `Attribute::num_elements`
(`len(data) / component_count`, total in Lean where division by zero is 0;
it agrees with the source's `num_elements` whenever the component count is
nonzero). -/
def numElementsTotal (a : Attribute) : Nat :=
  a.data.len / asUsize a.vertex_attribute.components

/-- Index of the first attribute (from position 1 on) whose element count
differs from that of attribute 0 — the "first mismatching attribute" of the
claim. -/
def firstMismatchAux (n0 : Nat) : List Attribute → Nat → Option Nat
  | [], _ => none
  | a :: rest, i =>
    if numElementsTotal a ≠ n0 then some i
    else firstMismatchAux n0 rest (i + 1)

/-- First mismatching attribute index of an attribute list, if any. -/
def firstMismatch : List Attribute → Option Nat
  | [] => none
  | a :: rest => firstMismatchAux (numElementsTotal a) rest 1

/-- The `num_elements` value carried by the validation loop of `Mesh::new`
after it has processed a prefix of the attribute list. -/
def threadedNE : List Attribute → Nat → Nat → Nat
  | [], _, n => n
  | a :: rest, i, n =>
    threadedNE rest (i + 1) (if i = 0 then numElementsTotal a else n)

/-- The `Indexed` commands of a command list, in document order. -/
def indexedCmds : List RenderCommand → List RenderCommand
  | [] => []
  | .indexed indexes p count w offset pr :: rest =>
    .indexed indexes p count w offset pr :: indexedCmds rest
  | .array _ _ _ :: rest => indexedCmds rest

/-- An `Indexed` command is still in the placeholder shape
`RenderCommand::indices` produced: count and index width taken from its own
descriptor, byte offset 0 (`Array` commands vacuously qualify). -/
def indexedFromDescriptor (c : RenderCommand) : Bool :=
  match c with
  | .indexed indexes _ count index_size offset _ =>
    decide (count = asI32 indexes.data.len) &&
      decide (index_size = indexes.index_size) && decide (offset = 0)
  | .array _ _ _ => true

/-! ### Concrete inputs used by witnesses and counterexamples -/

/-- A 3-component float position attribute over 4 vertices (48 bytes). -/
def attrPosC1 : Attribute :=
  ⟨0, VertexAttribute.new 3 .float false, .float (List.replicate 12 "0.5")⟩

/-- A 4-component float color attribute over 4 vertices (64 bytes). -/
def attrColorC1 : Attribute :=
  ⟨1, VertexAttribute.new 4 .float false, .float (List.replicate 16 "0.5")⟩

/-- Two attributes and one named VAO referencing attribute location 1. -/
def pdNamedVao : ParsedData := ⟨[attrPosC1, attrColorC1], [("v", [1])], []⟩

/-- Two attributes and one named VAO referencing the absent location 7. -/
def pdNamedVaoBad : ParsedData := ⟨[attrPosC1, attrColorC1], [("v", [7])], []⟩

/-- Same two streams for the layout witness. -/
def pdLayoutC2 : ParsedData := ⟨[attrPosC1, attrColorC1], [], []⟩

/-- A 3-element unsigned-short index stream (6 bytes). -/
def idatC3 : IndicesData := ⟨.unsignedShort, .unsignedShort [0, 1, 2]⟩

/-- A 4-element unsigned-int index stream (16 bytes). -/
def idatC3b : IndicesData := ⟨.unsignedInt, .unsignedInt [5, 6, 7, 8]⟩

/-- Two indexed commands around an array command, in placeholder shape. -/
def pdIndexedC3 : ParsedData :=
  ⟨[], [],
    [.indexed idatC3 .triangles (asI32 3) .unsignedShort 0 none,
     .array .lines 0 3,
     .indexed idatC3b .triangleFan (asI32 4) .unsignedInt 0 none]⟩

/-- Expected `Mesh::new` output on `pdIndexedC3`: the second indexed stream
starts at the 16-byte-aligned packed offset 16. -/
def meshIndexedC3 : MeshOut :=
  ⟨⟨[]⟩, [],
    [.indexed idatC3 .triangles (asI32 3) .unsignedShort 0 none,
     .array .lines 0 3,
     .indexed idatC3b .triangleFan (asI32 4) .unsignedInt 16 none],
    0, 32⟩

/-- A 4-component float attribute with 15 values: 3 elements, mismatching
the 4 elements of `attrPosC1`. -/
def attrMismatchC5 : Attribute :=
  ⟨1, VertexAttribute.new 4 .float false, .float (List.replicate 15 "0.5")⟩

/-- Attribute streams with differing element counts (4 then 3). -/
def pdMismatchC5 : ParsedData := ⟨[attrPosC1, attrMismatchC5], [], []⟩

/-- One-component attribute with one value: element count 1. -/
def attrOneC10 : Attribute :=
  ⟨0, VertexAttribute.new 1 .float false, .float ["1"]⟩

/-- One-component attribute with two values: element count 2. -/
def attrTwoC10 : Attribute :=
  ⟨1, VertexAttribute.new 1 .float false, .float ["1", "2"]⟩

/-- Zero-component attribute, as `Attribute::new` accepts for `size="0"`. -/
def attrZeroC10 : Attribute :=
  ⟨2, VertexAttribute.new 0 .float false, .float []⟩

/-- A mesh containing a zero-component attribute behind an earlier
element-count mismatch. -/
def pdZeroBehindMismatch : ParsedData :=
  ⟨[attrOneC10, attrTwoC10, attrZeroC10], [], []⟩

/-- Reader stream of a document whose stray `source` element sits at depth 3
(inside `<x><y>…`), while the parser state is `Initial`. -/
def eventsSourceDepth3 : List (Except String XmlEvent) :=
  [.ok (.startElement "mesh" []),
   .ok (.startElement "attribute"
     [⟨"index", "0"⟩, ⟨"size", "1"⟩, ⟨"type", "float"⟩]),
   .ok (.characters "1"),
   .ok .endElement,
   .ok (.startElement "x" []),
   .ok (.startElement "y" []),
   .ok (.startElement "source" []),
   .ok .endElement, .ok .endElement, .ok .endElement, .ok .endElement,
   .ok .endDocument]

/-- Reader stream that opens the mesh root and then yields a reader error
(a truncated document, as `xml-rs` reports it). -/
def eventsReaderError : List (Except String XmlEvent) :=
  [.ok (.startElement "mesh" []),
   .error "Unexpected end of stream"]

/-- A mesh output with one named VAO and one array command, for the render
witness. -/
def meshRenderC9 : MeshOut :=
  ⟨⟨[]⟩, [("a", ⟨[⟨0, VertexAttribute.new 3 .float false, 0, 0⟩]⟩)],
    [.array .triangles 0 3], 0, 0⟩

/-! ## Supporting lemmas -/

theorem align16_le (n : Nat) : n ≤ align16 n := by
  unfold align16; split <;> omega

theorem align16_mod16 (n : Nat) : align16 n % 16 = 0 := by
  unfold align16; split <;> omega

theorem align16_least (n m : Nat) (h1 : n ≤ m) (h2 : m % 16 = 0) :
    align16 n ≤ m := by
  unfold align16; split <;> omega

theorem packAligned16_fst_mod16 (bss : List Nat) (acc : Nat) :
    ∀ loc ∈ (packAligned16 bss acc).1, loc % 16 = 0 := by
  induction bss generalizing acc with
  | nil => intro loc h; simp [packAligned16] at h
  | cons bs rest ih =>
    intro loc h
    simp only [packAligned16, List.mem_cons] at h
    rcases h with h | h
    · subst h; exact align16_mod16 acc
    · exact ih _ loc h

theorem packAligned16_snd_eq (bss : List Nat) (acc : Nat) :
    (packAligned16 bss acc).2 = acc + (paddedSizes bss acc).sum := by
  induction bss generalizing acc with
  | nil => simp [packAligned16, paddedSizes]
  | cons bs rest ih =>
    have hle := align16_le acc
    simp only [packAligned16, paddedSizes, List.sum_cons]
    rw [ih]
    omega

theorem packAligned16_fst_length (bss : List Nat) (acc : Nat) :
    (packAligned16 bss acc).1.length = bss.length := by
  induction bss generalizing acc with
  | nil => simp [packAligned16]
  | cons bs rest ih => simp [packAligned16, ih]

theorem packAligned16_acc_le (bss : List Nat) (acc : Nat) :
    acc ≤ (packAligned16 bss acc).2 := by
  induction bss generalizing acc with
  | nil => simp [packAligned16]
  | cons bs rest ih =>
    have h1 := align16_le acc
    have h2 := ih (align16 acc + bs)
    simp only [packAligned16]
    omega

theorem packAligned16_fst_le (bss : List Nat) (acc : Nat) :
    ∀ loc ∈ (packAligned16 bss acc).1, loc ≤ (packAligned16 bss acc).2 := by
  induction bss generalizing acc with
  | nil => intro loc h; simp [packAligned16] at h
  | cons bs rest ih =>
    intro loc h
    simp only [packAligned16, List.mem_cons] at h ⊢
    rcases h with h | h
    · subst h
      have := packAligned16_acc_le rest (align16 acc + bs)
      omega
    · exact ih _ loc h

theorem num_elements_panic (a : Attribute)
    (h : asUsize a.vertex_attribute.components = 0) :
    a.num_elements = .error (.panic "attempt to divide by zero") := by
  simp [Attribute.num_elements, h]

theorem num_elements_ok (a : Attribute)
    (h : asUsize a.vertex_attribute.components ≠ 0) :
    a.num_elements = .ok (numElementsTotal a) := by
  simp [Attribute.num_elements, numElementsTotal, h]

theorem num_elements_eq_total (a : Attribute) (nb : Nat)
    (h : a.num_elements = .ok nb) : numElementsTotal a = nb := by
  by_cases hc : asUsize a.vertex_attribute.components = 0
  · rw [num_elements_panic a hc] at h
    cases h
  · rw [num_elements_ok a hc] at h
    exact Except.ok.inj h

theorem checkAttribsLoop_cons_zero (path : String) (a : Attribute)
    (rest : List Attribute) (n nb : Nat) (h : a.num_elements = .ok nb) :
    checkAttribsLoop path (a :: rest) 0 n =
      checkAttribsLoop path rest 1 nb := by
  simp [checkAttribsLoop, h]

theorem checkAttribsLoop_cons_pos (path : String) (b : Attribute)
    (rest : List Attribute) (j n0 nb : Nat) (hj : j ≠ 0)
    (h : b.num_elements = .ok nb) :
    checkAttribsLoop path (b :: rest) j n0 =
      if nb ≠ n0 then
        .error (.mesh (.vertexAttributesArrayWithDifferentSize j path))
      else checkAttribsLoop path rest (j + 1) n0 := by
  simp [checkAttribsLoop, hj, h]

theorem checkAttribsLoop_cons_err (path : String) (b : Attribute)
    (rest : List Attribute) (j n0 : Nat) (e : RtError)
    (h : b.num_elements = .error e) :
    checkAttribsLoop path (b :: rest) j n0 = .error e := by
  by_cases hj : j = 0 <;> simp [checkAttribsLoop, hj, h]

theorem checkAttribsLoop_error_of_mismatch (path : String) :
    ∀ (rest : List Attribute) (j n0 k : Nat), j ≠ 0 →
      (∀ a ∈ rest, asUsize a.vertex_attribute.components ≠ 0) →
      firstMismatchAux n0 rest j = some k →
      checkAttribsLoop path rest j n0 =
        .error (.mesh (.vertexAttributesArrayWithDifferentSize k path)) := by
  intro rest
  induction rest with
  | nil =>
    intro j n0 k hj hcomp hfm
    simp [firstMismatchAux] at hfm
  | cons b rest ih =>
    intro j n0 k hj hcomp hfm
    have hb : asUsize b.vertex_attribute.components ≠ 0 := hcomp b (by simp)
    rw [checkAttribsLoop_cons_pos path b rest j n0 (numElementsTotal b) hj
      (num_elements_ok b hb)]
    simp only [firstMismatchAux] at hfm
    by_cases hne : numElementsTotal b ≠ n0
    · rw [if_pos hne] at hfm
      cases hfm
      simp [hne]
    · rw [if_neg hne] at hfm
      rw [if_neg hne]
      exact ih (j + 1) n0 k (by omega)
        (fun a ha => hcomp a (by simp [ha])) hfm

theorem checkAttribsLoop_first_mismatch (path : String)
    (attribs : List Attribute) (k : Nat)
    (hcomp : ∀ a ∈ attribs, asUsize a.vertex_attribute.components ≠ 0)
    (hfm : firstMismatch attribs = some k) :
    checkAttribsLoop path attribs 0 0 =
      .error (.mesh (.vertexAttributesArrayWithDifferentSize k path)) := by
  cases attribs with
  | nil => simp [firstMismatch] at hfm
  | cons a rest =>
    have ha : asUsize a.vertex_attribute.components ≠ 0 := hcomp a (by simp)
    rw [checkAttribsLoop_cons_zero path a rest 0 (numElementsTotal a)
      (num_elements_ok a ha)]
    exact checkAttribsLoop_error_of_mismatch path rest 1 (numElementsTotal a)
      k (by omega) (fun b hb => hcomp b (by simp [hb]))
      (by simpa [firstMismatch] using hfm)

theorem getD_zero_of_all_zero (l : List Nat) (h : ∀ x ∈ l, x = 0) (k : Nat) :
    l.getD k 0 = 0 := by
  induction l generalizing k with
  | nil => simp [List.getD]
  | cons x rest ih =>
    cases k with
    | zero => simpa using h x (by simp)
    | succ k =>
      simp only [List.getD_cons_succ]
      exact ih (fun y hy => h y (by simp [hy])) k

theorem asI32_of_lt (n : Nat) (h : n < 2 ^ 31) : asI32 n = (n : Int) := by
  simp only [asI32]
  rw [Nat.mod_eq_of_lt (by omega), if_pos h]

theorem checkAttribsLoop_append (path : String) :
    ∀ (pre rest : List Attribute) (i n : Nat),
      checkAttribsLoop path pre i n = .ok () →
      checkAttribsLoop path (pre ++ rest) i n =
        checkAttribsLoop path rest (i + pre.length) (threadedNE pre i n) := by
  intro pre
  induction pre with
  | nil =>
    intro rest i n _
    simp [threadedNE]
  | cons b pre' ih =>
    intro rest i n h
    cases hb : b.num_elements with
    | error e =>
      rw [checkAttribsLoop_cons_err path b pre' i n e hb] at h
      cases h
    | ok nb =>
      have hnb : numElementsTotal b = nb := num_elements_eq_total b nb hb
      by_cases hi : i = 0
      · subst hi
        rw [checkAttribsLoop_cons_zero path b pre' n nb hb] at h
        rw [List.cons_append, checkAttribsLoop_cons_zero path b _ n nb hb,
          ih rest 1 nb h]
        have harith : 1 + pre'.length = 0 + (b :: pre').length := by
          simp [List.length_cons]; omega
        rw [harith]
        have hth : threadedNE (b :: pre') 0 n = threadedNE pre' 1 nb := by
          simp [threadedNE, hnb]
        rw [hth]
      · rw [checkAttribsLoop_cons_pos path b pre' i n nb hi hb] at h
        by_cases hne : nb ≠ n
        · rw [if_pos hne] at h
          cases h
        · rw [if_neg hne] at h
          rw [List.cons_append, checkAttribsLoop_cons_pos path b _ i n nb hi
            hb, if_neg hne, ih rest (i + 1) n h]
          have harith : i + 1 + pre'.length = i + (b :: pre').length := by
            simp [List.length_cons]; omega
          rw [harith]
          have hth : threadedNE (b :: pre') i n = threadedNE pre' (i + 1) n :=
            by simp [threadedNE, hi]
          rw [hth]

theorem indexedCmds_get_of_wf :
    ∀ (cmds : List RenderCommand),
      (∀ c ∈ cmds, indexedFromDescriptor c = true) →
      ∀ (k : Nat) (idx : IndicesData),
        (commandsIndices cmds).get? k = some idx →
        ∃ p pr, (indexedCmds cmds).get? k =
          some (.indexed idx p (asI32 idx.data.len) idx.index_size 0 pr) := by
  intro cmds
  induction cmds with
  | nil =>
    intro _ k idx hk
    simp [commandsIndices] at hk
  | cons c rest ih =>
    intro h k idx hk
    cases c with
    | indexed indexes p count w off pr =>
      have hc := h _ (List.mem_cons_self _ _)
      simp only [indexedFromDescriptor, Bool.and_eq_true,
        decide_eq_true_eq] at hc
      obtain ⟨⟨h1, h2⟩, h3⟩ := hc
      cases k with
      | zero =>
        simp only [commandsIndices, List.get?] at hk
        cases hk
        subst h1; subst h2; subst h3
        exact ⟨p, pr, by simp [indexedCmds, List.get?]⟩
      | succ k =>
        simp only [commandsIndices, List.get?] at hk
        obtain ⟨p', pr', hg⟩ := ih (fun d hd => h d (by simp [hd])) k idx hk
        exact ⟨p', pr', by simpa [indexedCmds, List.get?] using hg⟩
    | array p s e =>
      simp only [commandsIndices] at hk
      obtain ⟨p', pr', hg⟩ := ih (fun d hd => h d (by simp [hd])) k idx hk
      exact ⟨p', pr', by simpa [indexedCmds] using hg⟩

theorem backfill_get :
    ∀ (cmds : List RenderCommand) (locs : List Nat)
      (out : List RenderCommand),
      backfillCommands cmds locs = .ok out →
      ∀ (k : Nat) (idx : IndicesData) (p : Primitive) (count : Int)
        (w : IndexSize) (off : Nat) (pr : Option Nat),
        (indexedCmds cmds).get? k = some (.indexed idx p count w off pr) →
        (indexedCmds out).get? k =
          some (.indexed idx p count w (locs.getD k 0) pr) := by
  intro cmds
  induction cmds with
  | nil =>
    intro locs out hbf k idx p count w off pr hk
    simp [indexedCmds] at hk
  | cons c rest ih =>
    intro locs out hbf k idx p count w off pr hk
    cases c with
    | indexed indexes p0 count0 w0 off0 pr0 =>
      cases locs with
      | nil => cases hbf
      | cons loc locs' =>
        cases htail : backfillCommands rest locs' with
        | error e =>
          rw [backfillCommands, htail] at hbf
          cases hbf
        | ok tail =>
          rw [backfillCommands, htail] at hbf
          cases hbf
          cases k with
          | zero =>
            simp only [indexedCmds, List.get?] at hk ⊢
            cases hk
            simp [List.getD]
          | succ k =>
            simp only [indexedCmds, List.get?] at hk ⊢
            simpa [List.getD_cons_succ] using
              ih locs' tail htail k idx p count w off pr hk
    | array p0 s0 e0 =>
      cases htail : backfillCommands rest locs with
      | error e =>
        rw [backfillCommands, htail] at hbf
        cases hbf
      | ok tail =>
        rw [backfillCommands, htail] at hbf
        cases hbf
        simp only [indexedCmds] at hk ⊢
        exact ih locs tail htail k idx p count w off pr hk

theorem render_command_indices_wf (atts : List OwnedAttribute)
    (idx : IndicesData) (c : RenderCommand)
    (h : RenderCommand.indices atts idx = .ok c) :
    indexedFromDescriptor c = true := by
  simp only [RenderCommand.indices, bind, Except.bind] at h
  cases h1 : find_attribute atts "cmd" with
  | error e =>
    simp only [h1] at h
    cases h
  | ok s =>
    simp only [h1] at h
    cases h2 : parse_primitive s with
    | error e =>
      simp only [h2] at h
      cases h
    | ok p =>
      simp only [h2, pure, Except.pure] at h
      cases Except.ok.inj h
      simp [indexedFromDescriptor]

theorem mesh_new_ok_commands (pd : ParsedData) (path : String) (m : MeshOut)
    (hok : (Mesh.new pd path).2 = .ok m) :
    (0 < (packAligned16 ((commandsIndices pd.commands).map
        IndicesData.byte_size) 0).2 ∧
      backfillCommands pd.commands
        (packAligned16 ((commandsIndices pd.commands).map
          IndicesData.byte_size) 0).1 = .ok m.commands) ∨
    ((packAligned16 ((commandsIndices pd.commands).map
        IndicesData.byte_size) 0).2 = 0 ∧
      m.commands = pd.commands) := by
  simp only [Mesh.new] at hok
  cases hchk : checkAttribsLoop path pd.attribs 0 0 with
  | error e =>
    simp only [hchk] at hok
    simp at hok
  | ok u =>
    simp only [hchk] at hok
    cases hb : buildNamedVaoList pd.attribs path pd.named_vao_list [] with
    | error e =>
      simp only [hb] at hok
      simp at hok
    | ok named =>
      simp only [hb] at hok
      by_cases hpos : (packAligned16 ((commandsIndices pd.commands).map
          IndicesData.byte_size) 0).2 > 0
      · rw [if_pos hpos] at hok
        cases hbf : backfillCommands pd.commands
            (packAligned16 ((commandsIndices pd.commands).map
              IndicesData.byte_size) 0).1 with
        | error e =>
          simp only [hbf] at hok
          simp at hok
        | ok cmds =>
          simp only [hbf] at hok
          have hm := Except.ok.inj hok
          subst hm
          refine Or.inl ⟨hpos, ?_⟩
          simp [hbf]
      · rw [if_neg hpos] at hok
        dsimp only at hok
        have hm := Except.ok.inj hok
        subst hm
        exact Or.inr ⟨by omega, rfl⟩

/-! ## Claims -/

/-- C2: for every list of parsed attributes, the layout loop of `Mesh::new`
computes start offsets that are all ≡ 0 mod 16; each offset is the running
cursor rounded up (never down) to the next multiple of 16 (`align16 n` is
the least multiple of 16 that is ≥ n); the final cursor equals the sum of
the padded byte sizes of all attributes; and whenever validation passes,
`Mesh::new` allocates the attribute buffer (`reserve_data_bytes`, i.e.
`glBufferData` on `GL_ARRAY_BUFFER`) with exactly that final cursor value. -/
theorem mesh_new_layout_aligned (pd : ParsedData) (path : String) :
    (∀ loc ∈ (packAligned16 (pd.attribs.map Attribute.byte_size) 0).1,
      loc % 16 = 0) ∧
    (∀ n : Nat, n ≤ align16 n ∧ align16 n % 16 = 0 ∧
      ∀ m2, n ≤ m2 → m2 % 16 = 0 → align16 n ≤ m2) ∧
    ((packAligned16 (pd.attribs.map Attribute.byte_size) 0).2 =
      (paddedSizes (pd.attribs.map Attribute.byte_size) 0).sum) ∧
    (checkAttribsLoop path pd.attribs 0 0 = .ok () →
      GlCall.bufferData .arrayBuffer
        (packAligned16 (pd.attribs.map Attribute.byte_size) 0).2 ∈
        (Mesh.new pd path).1) := by
  refine ⟨packAligned16_fst_mod16 _ 0,
    fun n => ⟨align16_le n, align16_mod16 n, fun m2 h1 h2 =>
      align16_least n m2 h1 h2⟩,
    by simpa using packAligned16_snd_eq (pd.attribs.map Attribute.byte_size) 0,
    fun hchk => ?_⟩
  simp only [Mesh.new, hchk]
  cases hb : buildNamedVaoList pd.attribs path pd.named_vao_list [] with
  | error e => simp [List.mem_append]
  | ok named =>
    simp only []
    split
    · split
      · simp [List.mem_append]
      · simp [List.mem_append]
    · simp [List.mem_append]

/-- Witness for C2 on a two-attribute mesh (byte sizes 48 and 64): the
second offset 48 is aligned, and the allocated array-buffer size is 112. -/
theorem mesh_new_layout_aligned_witness :
    (48 % 16 = 0) ∧
    GlCall.bufferData .arrayBuffer 112 ∈ (Mesh.new pdLayoutC2 "p").1 := by
  constructor
  · exact (mesh_new_layout_aligned pdLayoutC2 "p").1 48 (by decide)
  · have h := (mesh_new_layout_aligned pdLayoutC2 "p").2.2.2 rfl
    have he : (packAligned16 (pdLayoutC2.attribs.map Attribute.byte_size)
        0).2 = 112 := by decide
    rwa [he] at h

theorem filter_draw_map (cmds : List RenderCommand) :
    (cmds.map (fun cmd => RenderEvent.draw cmd.render)).filter
      RenderEvent.isDraw =
      cmds.map (fun cmd => RenderEvent.draw cmd.render) := by
  induction cmds with
  | nil => rfl
  | cons c rest ih => simp [RenderEvent.isDraw, ih]

/-- C9: `render_mesh` (the source's name for `render_named`) on an absent
name issues no event at all (no draw, no error); on a present name it binds
the found named VAO, replays exactly the draw calls that `render` replays —
the full command list in document order — and unbinds. -/
theorem render_named_lookup (m : MeshOut) (mesh_name : String) :
    (m.named_vaos.find? (fun p => p.1 = mesh_name) = none →
      Mesh.render_mesh m mesh_name = []) ∧
    (∀ nm vao,
      m.named_vaos.find? (fun p => p.1 = mesh_name) = some (nm, vao) →
      Mesh.render_mesh m mesh_name =
        RenderEvent.bindVertexArray vao ::
          ((Mesh.render m).filter RenderEvent.isDraw ++
            [RenderEvent.unbindVertexArray])) := by
  constructor
  · intro h
    simp [Mesh.render_mesh, h]
  · intro nm vao h
    simp [Mesh.render_mesh, h, Mesh.render, List.filter_append,
      filter_draw_map, RenderEvent.isDraw]

/-- Witness for C9: the mesh `meshRenderC9` has a VAO named "a" but none
named "b"; rendering "b" is a no-op and rendering "a" binds, replays
`render`'s draw calls, and unbinds. -/
theorem render_named_lookup_witness :
    Mesh.render_mesh meshRenderC9 "b" = [] ∧
    Mesh.render_mesh meshRenderC9 "a" =
      RenderEvent.bindVertexArray
          ⟨[⟨0, VertexAttribute.new 3 .float false, 0, 0⟩]⟩ ::
        ((Mesh.render meshRenderC9).filter RenderEvent.isDraw ++
          [RenderEvent.unbindVertexArray]) :=
  ⟨(render_named_lookup meshRenderC9 "b").1 rfl,
   (render_named_lookup meshRenderC9 "a").2 "a"
     ⟨[⟨0, VertexAttribute.new 3 .float false, 0, 0⟩]⟩ rfl⟩

/-- C1 (divergence shown by evaluation): on `pdNamedVao`, the default VAO
registers attribute location 1 at its computed byte offset 48, but the named
VAO "v" registers the same attribute at byte offset 1 — the attribute's
POSITION in the attribute list, which the source passes as `offset as GLint`
— not at the previously computed offset.  The unresolved-location half of
the claim does hold: referencing the absent location 7 fails with
`VaoSourceInvalidIndex(7, "v", path)`. -/
theorem named_vao_offset_eval :
    ((Mesh.new pdNamedVao "p").2 = .ok
      ⟨⟨[⟨0, VertexAttribute.new 3 .float false, 0, 0⟩,
         ⟨1, VertexAttribute.new 4 .float false, 0, 48⟩]⟩,
       [("v", ⟨[⟨1, VertexAttribute.new 4 .float false, 0, 1⟩]⟩)],
       [], 112, 0⟩) ∧
    ((Mesh.new pdNamedVaoBad "p").2 =
      .error (.mesh (.vaoSourceInvalidIndex 7 "v" "p"))) :=
  ⟨rfl, rfl⟩

/-- C4 (divergence shown by evaluation): `Attribute::new`'s bound check is
`!(0..=5).contains(&size)`, so `size="0"` is ACCEPTED (first conjunct),
although the claim — and the source's own error message "Attribute size must
be between 1 and 5" — require rejecting it; sizes 6 and -1 are rejected with
`InvalidVertexAttributeSize` as expected. -/
theorem attribute_size_zero_eval :
    (Attribute.new [⟨"index", "0"⟩, ⟨"size", "0"⟩, ⟨"type", "float"⟩] "" =
      .ok ⟨0, VertexAttribute.new 0 .float false, .float []⟩) ∧
    (Attribute.new [⟨"index", "0"⟩, ⟨"size", "6"⟩, ⟨"type", "float"⟩] "" =
      .error (.mesh (.invalidVertexAttributeSize 6))) ∧
    (Attribute.new [⟨"index", "0"⟩, ⟨"size", "-1"⟩, ⟨"type", "float"⟩] "" =
      .error (.mesh (.invalidVertexAttributeSize (-1)))) := by
  refine ⟨by decide, by decide, by decide⟩

/-- C6 (divergence shown by evaluation): a reader error in the event stream
is skipped by the loop (first conjunct, the `Err(err) => eprintln!` arm), so
parsing a stream that opens the root and then yields a reader error returns
`Ok` with whatever was parsed — no typed error reaches the caller. -/
theorem reader_error_ignored_eval :
    (∀ path msg rest st depth attribs named cmds,
      parseXmlLoop path (.error msg :: rest) st depth attribs named cmds =
        parseXmlLoop path rest st depth attribs named cmds) ∧
    Mesh.parse_xml "p" eventsReaderError = .ok ⟨[], [], []⟩ :=
  ⟨fun _ _ _ _ _ _ _ _ => rfl, rfl⟩

/-- C7 (divergence shown by evaluation): the token "half" does map to
`(Fixed, non-normalized)`, but constructing an attribute of that kind
reaches `unimplemented!()` in `From<DataType> for VertexAttributeValues` —
a process abort, not a constructed attribute and not a typed `MeshError`
(the `UnimplementedDataFormat` variant exists but is never produced). -/
theorem half_data_type_panics_eval :
    (parse_data_type "half" = .ok (.fixed, false)) ∧
    (Attribute.new [⟨"index", "0"⟩, ⟨"size", "3"⟩, ⟨"type", "half"⟩] "" =
      .error (.panic "not implemented")) :=
  ⟨rfl, by decide⟩

/-- Counterexample to C10 as stated: `pdZeroBehindMismatch` contains a
zero-component attribute (accepted by construction), yet `Mesh::new` does
NOT panic on it — the earlier element-count mismatch at index 1 returns the
typed different-size error first. -/
theorem zero_component_behind_mismatch_eval :
    (attrZeroC10 ∈ pdZeroBehindMismatch.attribs ∧
      asUsize attrZeroC10.vertex_attribute.components = 0) ∧
    Mesh.new pdZeroBehindMismatch "p" =
      (meshDataNewCalls,
       .error (.mesh (.vertexAttributesArrayWithDifferentSize 1 "p"))) :=
  ⟨⟨by simp [pdZeroBehindMismatch], rfl⟩, rfl⟩

/-- C5: on a mesh whose attributes (all with a nonzero component count) do
not all share the same element count, `Mesh::new` returns the
`VertexAttributesArrayWithDifferentSize` error carrying the index of the
first mismatching attribute and the path, and at that point the only GL
buffer calls made are the two `GenBuffers` of `MeshData::new` — no
`glBufferData` allocation and no `glBufferSubData` upload has happened, so
no partially-uploaded buffer exists. -/
theorem mesh_new_different_size_before_upload (pd : ParsedData)
    (path : String) (k : Nat)
    (hcomp : ∀ a ∈ pd.attribs, asUsize a.vertex_attribute.components ≠ 0)
    (hfm : firstMismatch pd.attribs = some k) :
    Mesh.new pd path =
      (meshDataNewCalls,
       .error (.mesh (.vertexAttributesArrayWithDifferentSize k path))) ∧
    ∀ call ∈ (Mesh.new pd path).1, call.isBufferWrite = false := by
  have hchk := checkAttribsLoop_first_mismatch path pd.attribs k hcomp hfm
  have h1 : Mesh.new pd path =
      (meshDataNewCalls,
       .error (.mesh (.vertexAttributesArrayWithDifferentSize k path))) := by
    simp [Mesh.new, hchk]
  refine ⟨h1, fun call hc => ?_⟩
  rw [h1] at hc
  simp only [meshDataNewCalls, List.mem_cons, List.mem_singleton,
    List.not_mem_nil, or_false] at hc
  rcases hc with hc | hc <;> subst hc <;> rfl

/-- Witness for C5: element counts 4 and 3 mismatch at index 1; `Mesh::new`
fails there with only the two `GenBuffers` calls in the trace. -/
theorem mesh_new_different_size_before_upload_witness :
    Mesh.new pdMismatchC5 "p" =
      (meshDataNewCalls,
       .error (.mesh (.vertexAttributesArrayWithDifferentSize 1 "p"))) :=
  (mesh_new_different_size_before_upload pdMismatchC5 "p" 1 (by decide)
    (by decide)).1

/-- C10 (amended): `Attribute::new` accepts `size="0"` (component count 0);
`num_elements` on any zero-component attribute is a division-by-zero panic,
not a typed error; and `Mesh::new` on a mesh whose attribute list reaches a
zero-component attribute during validation (no earlier mismatch aborts
first) panics instead of returning a typed `MeshError`. -/
theorem zero_size_attribute_panics (pre post : List Attribute)
    (a : Attribute) (nv : List (String × List Nat))
    (cmds : List RenderCommand) (path : String)
    (hz : asUsize a.vertex_attribute.components = 0)
    (hpre : checkAttribsLoop path pre 0 0 = .ok ()) :
    (Attribute.new [⟨"index", "0"⟩, ⟨"size", "0"⟩, ⟨"type", "float"⟩] "" =
      .ok ⟨0, VertexAttribute.new 0 .float false, .float []⟩) ∧
    a.num_elements = .error (.panic "attempt to divide by zero") ∧
    Mesh.new ⟨pre ++ a :: post, nv, cmds⟩ path =
      (meshDataNewCalls, .error (.panic "attempt to divide by zero")) := by
  refine ⟨by decide, num_elements_panic a hz, ?_⟩
  have hpanic : checkAttribsLoop path (pre ++ a :: post) 0 0 =
      .error (.panic "attempt to divide by zero") := by
    rw [checkAttribsLoop_append path pre (a :: post) 0 0 hpre]
    exact checkAttribsLoop_cons_err path a post (0 + pre.length)
      (threadedNE pre 0 0) _ (num_elements_panic a hz)
  simp [Mesh.new, hpanic]

/-- Witness for C10: a mesh whose only attribute has component count 0
makes `Mesh::new` panic with the division-by-zero message. -/
theorem zero_size_attribute_panics_witness :
    Mesh.new ⟨[attrZeroC10], [], []⟩ "p" =
      (meshDataNewCalls, .error (.panic "attempt to divide by zero")) :=
  (zero_size_attribute_panics [] [] attrZeroC10 [] [] "p" rfl rfl).2.2

/-- Counterexample to C8 as stated: `eventsSourceDepth3` contains a `source`
start element while the parser state is `Initial` (it sits at depth 3,
inside `<x><y>`), yet parsing returns `Ok` — no `SourceTagNotInVaoTag` error
is raised, because the source only checks `source` elements at depth 2. -/
theorem source_depth3_parses_eval :
    Mesh.parse_xml "p" eventsSourceDepth3 =
      .ok ⟨[⟨0, VertexAttribute.new 1 .float false, .float ["1"]⟩], [], []⟩ :=
  by decide

/-- C8 (amended): a `source` start element at depth 2 while the state is not
`InVaoTag` fails with `SourceTagNotInVaoTag(path)`; at depth 3 or deeper the
same stray `source` element is ignored and parsing continues. -/
theorem source_outside_vao_depth2_only (path : String)
    (rest : List (Except String XmlEvent)) (st : ParserState)
    (atts : List OwnedAttribute) (depth : Int)
    (attribs : List Attribute) (named : List (String × List Nat))
    (cmds : List RenderCommand) :
    ((∀ va sa, st ≠ .inVaoTag va sa) →
      parseXmlLoop path (.ok (.startElement "source" atts) :: rest) st 2
        attribs named cmds =
        .error (.mesh (.sourceTagNotInVaoTag path))) ∧
    (3 ≤ depth →
      parseXmlLoop path (.ok (.startElement "source" atts) :: rest) st depth
        attribs named cmds =
        parseXmlLoop path rest st (depth + 1) attribs named cmds) := by
  constructor
  · intro hst
    simp only [parseXmlLoop]
    simp
  · intro hd
    simp only [parseXmlLoop]
    rw [if_neg (by omega : ¬depth = 0), if_neg (by omega : ¬depth = 1),
      if_neg (by omega : ¬depth = 2)]

/-- Witness for C8's amended claim, at state `Initial`: the stray `source`
errors at depth 2 and is skipped at depth 3. -/
theorem source_outside_vao_depth2_only_witness :
    (parseXmlLoop "p" [.ok (.startElement "source" [])] .initial 2 [] [] [] =
      .error (.mesh (.sourceTagNotInVaoTag "p"))) ∧
    (parseXmlLoop "p" [.ok (.startElement "source" [])] .initial 3 [] [] [] =
      parseXmlLoop "p" [] .initial (3 + 1) [] [] []) :=
  ⟨(source_outside_vao_depth2_only "p" [] .initial [] 2 [] [] []).1
    (fun va sa h => ParserState.noConfusion h),
   (source_outside_vao_depth2_only "p" [] .initial [] 3 [] [] []).2
    (by norm_num)⟩

/-- C3: when `Mesh::new` succeeds on parsed data whose commands are in the
placeholder shape `RenderCommand::indices` produced, the k-th `Indexed`
command in document order carries the k-th 16-byte-aligned packed offset of
the independently laid-out index streams, its count is its own (the k-th)
descriptor's data length (`as i32`; equal to the length whenever it is below
2^31), and its index width is that descriptor's resolved width — the
command/descriptor correspondence being positional in document order. -/
theorem mesh_new_backfills_indexed (pd : ParsedData) (path : String)
    (m : MeshOut) (hok : (Mesh.new pd path).2 = .ok m)
    (hwf : ∀ c ∈ pd.commands, indexedFromDescriptor c = true) :
    ∀ (k : Nat) (idx : IndicesData),
      (commandsIndices pd.commands).get? k = some idx →
      ∃ p pr, (indexedCmds m.commands).get? k =
        some (.indexed idx p (asI32 idx.data.len) idx.index_size
          (((packAligned16 ((commandsIndices pd.commands).map
            IndicesData.byte_size) 0).1).getD k 0) pr) ∧
        (idx.data.len < 2 ^ 31 → asI32 idx.data.len = (idx.data.len : Int)) :=
  by
  intro k idx hk
  obtain ⟨p, pr, hg⟩ := indexedCmds_get_of_wf pd.commands hwf k idx hk
  rcases mesh_new_ok_commands pd path m hok with ⟨hpos, hbf⟩ | ⟨hzero, hcm⟩
  · exact ⟨p, pr,
      backfill_get pd.commands _ m.commands hbf k idx p _ _ 0 pr hg,
      fun hlt => asI32_of_lt _ hlt⟩
  · rw [hcm]
    have hall : ∀ loc ∈ (packAligned16 ((commandsIndices pd.commands).map
        IndicesData.byte_size) 0).1, loc = 0 := fun loc hl =>
      Nat.le_zero.mp (hzero ▸ packAligned16_fst_le _ 0 loc hl)
    rw [getD_zero_of_all_zero _ hall k]
    exact ⟨p, pr, hg, fun hlt => asI32_of_lt _ hlt⟩

/-- Witness for C3: on `pdIndexedC3` (two indexed commands around an array
command), `Mesh::new` back-fills the second indexed command with packed
offset 16, count 4, width unsigned-int. -/
theorem mesh_new_backfills_indexed_witness :
    (Mesh.new pdIndexedC3 "p").2 = .ok meshIndexedC3 ∧
    ∃ p pr, (indexedCmds meshIndexedC3.commands).get? 1 =
      some (.indexed idatC3b p (asI32 idatC3b.data.len) idatC3b.index_size
        (((packAligned16 ((commandsIndices pdIndexedC3.commands).map
          IndicesData.byte_size) 0).1).getD 1 0) pr) ∧
      (idatC3b.data.len < 2 ^ 31 →
        asI32 idatC3b.data.len = (idatC3b.data.len : Int)) := by
  have hok : (Mesh.new pdIndexedC3 "p").2 = .ok meshIndexedC3 := by decide
  exact ⟨hok, mesh_new_backfills_indexed pdIndexedC3 "p" meshIndexedC3 hok
    (by decide) 1 idatC3b (by decide)⟩

end OpenGlRend
